import Mathlib

/- Shallow embedding of src/mcp_agent.py: repository-format validation,
Docker availability check, query templates, the agent invoker
run_github_agent, and the Run Query handler.  Pure helpers are translated
directly; the pieces that talk to the outside world (subprocess spawn, the
remote agent call) are modelled by an explicit outcome argument, with the
control flow of the Python try/except and async-with blocks translated
into the returned record. -/

namespace MCPAgent

/-- Python whitespace for str.strip / str.isspace: tab through carriage
return, the file and unit separators, space, next line, no-break space,
ogham space mark, the Unicode space separators, line and paragraph
separator, narrow no-break space, medium mathematical space, and
ideographic space. -/
def pyIsSpace (c : Char) : Bool :=
  decide ((9 ≤ c.toNat ∧ c.toNat ≤ 13) ∨ (28 ≤ c.toNat ∧ c.toNat ≤ 32) ∨
    c.toNat = 133 ∨ c.toNat = 160 ∨ c.toNat = 5760 ∨
    (8192 ≤ c.toNat ∧ c.toNat ≤ 8202) ∨ c.toNat = 8232 ∨ c.toNat = 8233 ∨
    c.toNat = 8239 ∨ c.toNat = 8287 ∨ c.toNat = 12288)

/-- The ASCII fragment of the Python regex class backslash-w (letters,
digits, underscore).  Python also counts non-ASCII word characters; the
theorems about the repository pattern therefore carry an all-ASCII
hypothesis. -/
def pyWordCharAscii (c : Char) : Bool :=
  c.isAlpha || c.isDigit || c == '_'

/-- Character class of the owner part of the pattern, regex [\w-]. -/
def ownerChar (c : Char) : Bool :=
  pyWordCharAscii c || c == '-'

/-- Character class of the name part of the pattern, regex [\w.-]. -/
def nameChar (c : Char) : Bool :=
  pyWordCharAscii c || c == '.' || c == '-'

/-- Python str.strip: remove leading and trailing whitespace. -/
def pyStrip (l : List Char) : List Char :=
  ((l.dropWhile pyIsSpace).reverse.dropWhile pyIsSpace).reverse

/-- True away from the slash separator; the regex pieces [\w-]+ and
[\w.-]+ can never consume a slash. -/
def notSlash (c : Char) : Bool :=
  c != '/'

/-- One full match of [\w-]+/[\w.-]+ against the whole list: a non-empty
owner segment, exactly one slash, a non-empty name segment. -/
def coreMatch (l : List Char) : Bool :=
  match l.dropWhile notSlash with
  | [] => false
  | _ :: rest =>
    let a := l.takeWhile notSlash
    !a.isEmpty && a.all ownerChar && !rest.isEmpty && rest.all nameChar

/-- Python re.match with pattern endash-anchored by a dollar: the dollar
also matches just before one newline at the end of the string, so the
regex accepts the core pattern optionally followed by a single trailing
newline. -/
def pyRegexMatch (l : List Char) : Bool :=
  coreMatch l || (l.getLast? == some '\n' && coreMatch l.dropLast)

/-- validate_repo_format from src/mcp_agent.py lines 14-26. -/
def validate_repo_format (repo : String) : Bool × Option String :=
  if repo = "" ∨ pyStrip repo.data = [] then
    (false, some "Repository cannot be empty")
  else if pyRegexMatch repo.data then (true, none)
  else (false, some "Repository must be in format 'owner/repo' (e.g., 'octocat/Hello-World')")

/-- The spec's owner/name pattern, stated by decomposition: the character
list is an owner segment, one slash, and a name segment, with the owner
matching [A-Za-z0-9_-]+ and the name matching [A-Za-z0-9_.-]+. -/
def SpecPattern (l : List Char) : Prop :=
  ∃ a b : List Char, l = a ++ '/' :: b ∧ a ≠ [] ∧
    (∀ c ∈ a, ownerChar c = true) ∧ b ≠ [] ∧ (∀ c ∈ b, nameChar c = true)

/-- The language validate_repo_format actually accepts at its regex step:
the spec pattern, or the spec pattern followed by one trailing newline
(an artifact of the dollar anchor under Python re.match). -/
def PyAccepted (l : List Char) : Prop :=
  SpecPattern l ∨ ∃ m : List Char, l = m ++ ['\n'] ∧ SpecPattern m

/-- How subprocess.run(["docker", "ps"], timeout=5) can end, as seen by
check_docker_available: the process completed within the timeout with
some exit code, the docker executable was missing (FileNotFoundError),
the 5-second timeout expired (subprocess.TimeoutExpired), or some other
exception was raised. -/
inductive DockerCheckOutcome where
  | completed (returncode : Int)
  | executableMissing
  | timedOut
  | otherFailure (msg : String)
  deriving DecidableEq

/-- The timeout passed to subprocess.run in check_docker_available. -/
def docker_check_timeout_seconds : Nat := 5

/-- check_docker_available from src/mcp_agent.py lines 29-50. -/
def check_docker_available : DockerCheckOutcome → Bool × Option String
  | .completed rc =>
    if rc = 0 then (true, none)
    else (false, some "Docker is installed but not running. Please start Docker Desktop.")
  | .executableMissing =>
    (false, some "Docker is not installed. Please install Docker Desktop from https://www.docker.com/products/docker-desktop")
  | .timedOut =>
    (false, some "Docker check timed out. Docker may be unresponsive.")
  | .otherFailure m =>
    (false, some ("Error checking Docker: " ++ m))

/-- The Query Type selectbox entries of src/mcp_agent.py lines 150-160. -/
inductive QueryCategory where
  | issues
  | pullRequests
  | actions
  | codeSearch
  | branchAnalysis
  | commitHistory
  | releases
  | repositoryActivity
  | custom
  deriving DecidableEq

/-- query_template from src/mcp_agent.py lines 162-179: per category, the
scoped f-string when repo is non-empty, else the unscoped literal; the
Custom category has the empty template. -/
def query_template (qt : QueryCategory) (repo : String) : String :=
  match qt with
  | .issues =>
    if repo = "" then "Find issues labeled as bugs"
    else "Find issues labeled as bugs in " ++ repo
  | .pullRequests =>
    if repo = "" then "Show me recent merged PRs"
    else "Show me recent merged PRs in " ++ repo
  | .actions =>
    if repo = "" then "Analyze workflow runs and identify any failures"
    else "Analyze workflow runs and identify any failures in " ++ repo
  | .codeSearch =>
    if repo = "" then "Search for TODO comments"
    else "Search for TODO comments in " ++ repo
  | .branchAnalysis =>
    if repo = "" then "List all stale branches"
    else "List all stale branches (no activity in 60 days) in " ++ repo
  | .commitHistory =>
    if repo = "" then "Show commit patterns and top contributors"
    else "Show commit patterns and top contributors in " ++ repo
  | .releases =>
    if repo = "" then "Show recent releases"
    else "Show recent releases and generate changelog in " ++ repo
  | .repositoryActivity =>
    if repo = "" then "Analyze code quality trends"
    else "Analyze code quality trends in " ++ repo
  | .custom => ""

/-- The spec's buildInstruction over the code's templates: the Custom
category passes the free text through unchanged, every other category
uses query_template. -/
def buildInstruction (qt : QueryCategory) (repo freeText : String) : String :=
  if qt = .custom then freeText else query_template qt repo

/-- The text standing before " in " in each category's repository-scoped
template (read off the f-strings of lines 162-179). -/
def scoped_template_base : QueryCategory → String
  | .issues => "Find issues labeled as bugs"
  | .pullRequests => "Show me recent merged PRs"
  | .actions => "Analyze workflow runs and identify any failures"
  | .codeSearch => "Search for TODO comments"
  | .branchAnalysis => "List all stale branches (no activity in 60 days)"
  | .commitHistory => "Show commit patterns and top contributors"
  | .releases => "Show recent releases and generate changelog"
  | .repositoryActivity => "Analyze code quality trends"
  | .custom => ""

/-- Whether the list starts with the given needle (first argument the
haystack, second the needle). -/
def listStartsWith : List Char → List Char → Bool
  | _, [] => true
  | [], _ :: _ => false
  | c :: hs, n :: ns => c == n && listStartsWith hs ns

/-- Python substring containment on character lists: the needle occurs
contiguously somewhere in the haystack. -/
def containsSub : List Char → List Char → Bool
  | [], needle => needle.isEmpty
  | c :: hs, needle => listStartsWith (c :: hs) needle || containsSub hs needle

/-- The Python expression `needle in hay` on strings. -/
def strIn (needle hay : String) : Bool :=
  containsSub hay.data needle.data

/-- The needle's literal text appears inside the haystack. -/
def AppearsIn (needle hay : String) : Prop :=
  ∃ pre post : List Char, hay.data = pre ++ needle.data ++ post

/-- The StdioServerParameters value built in run_github_agent, lines
196-209: the docker command line and the environment entries the code
adds on top of the inherited os.environ. -/
structure StdioServerParameters where
  command : String
  args : List String
  envAdds : List (String × String)
  inheritsHostEnv : Bool
  deriving DecidableEq

/-- server parameters of run_github_agent lines 196-209. -/
def server_params (githubToken : String) : StdioServerParameters :=
  { command := "docker"
  , args := ["run", "-i", "--rm", "-e", "GITHUB_PERSONAL_ACCESS_TOKEN",
      "-e", "GITHUB_TOOLSETS", "ghcr.io/github/github-mcp-server"]
  , envAdds := [("GITHUB_PERSONAL_ACCESS_TOKEN", githubToken),
      ("GITHUB_TOOLSETS", "repos,issues,pull_requests,workflows,search,branches,commits,releases")]
  , inheritsHostEnv := true }

/-- The environment variable names a docker argument list forwards into
the container: each name standing right after an "-e" flag. -/
def forwardedEnvVars : List String → List String
  | [] => []
  | "-e" :: v :: rest => v :: forwardedEnvVars rest
  | _ :: rest => forwardedEnvVars rest

/-- The exception classes run_github_agent's try/except distinguishes
(lines 282-296), with the detail text Python would render for str(e). -/
inductive PyExn where
  | timeoutErr
  | connectionErr (details : String)
  | fileNotFoundErr
  | permissionErr (details : String)
  | valueErr (details : String)
  | keyErr (details : String)
  | otherErr (exnType details : String)
  deriving DecidableEq

/-- How the body of run_github_agent's try block can end: entering the
MCPTools async-with raised before a session existed, or the session was
established and the awaited agent run returned content or raised. -/
inductive AgentOutcome where
  | launchFailed (e : PyExn)
  | runCompleted (content : String)
  | runFailed (e : PyExn)
  deriving DecidableEq

/-- The timeout passed to asyncio.wait_for in run_github_agent. -/
def agent_timeout_seconds : Nat := 120

/-- The except clauses of run_github_agent lines 282-296: one message per
distinguished exception class, and the catch-all message carrying the
exception's type name and str(e). -/
def handleExn : PyExn → String
  | .timeoutErr =>
    "⏱️ Error: Request timed out after 120 seconds. Try a simpler query or check your connection."
  | .connectionErr d =>
    "🔌 Error: Connection failed. Please check your internet connection.\nDetails: " ++ d
  | .fileNotFoundErr =>
    "🐳 Error: Docker command not found. Please ensure Docker is installed and in your PATH."
  | .permissionErr d =>
    "🔒 Error: Permission denied. Docker may need elevated privileges.\nDetails: " ++ d
  | .valueErr d =>
    "⚠️ Error: Invalid configuration or parameters.\nDetails: " ++ d
  | .keyErr d =>
    "🔑 Error: Missing required configuration.\nDetails: " ++ d
  | .otherErr ty d =>
    "❌ Unexpected error (" ++ ty ++ "): " ++ d ++
      "\n\nPlease check:\n- Docker is running\n- Your tokens are valid\n- The repository exists and is accessible"

/-- What one call of run_github_agent did: the string it returned, the
launch parameters it built (none when it returned before building them),
whether the MCPTools session was entered, and how many times the session
was exited (the async-with calls its exit handler exactly once whenever
the block was entered, on the success, timeout and exception paths
alike). -/
structure InvokeResult where
  message : String
  params : Option StdioServerParameters
  sessionLaunched : Bool
  teardownCount : Nat
  deriving DecidableEq

/-- run_github_agent from src/mcp_agent.py lines 184-296.  The
environment values read by os.getenv are passed as strings, the empty
string standing for an unset variable; the external run is abstracted by
the outcome argument. -/
def run_github_agent (githubToken openaiKey : String) (outcome : AgentOutcome) : InvokeResult :=
  if githubToken = "" then
    { message := "❌ Error: GitHub token not provided. Please enter your token in the sidebar."
    , params := none, sessionLaunched := false, teardownCount := 0 }
  else if openaiKey = "" then
    { message := "❌ Error: OpenAI API key not provided. Please enter your API key in the sidebar."
    , params := none, sessionLaunched := false, teardownCount := 0 }
  else
    match outcome with
    | .launchFailed e =>
      { message := handleExn e, params := some (server_params githubToken)
      , sessionLaunched := false, teardownCount := 0 }
    | .runCompleted c =>
      { message := c, params := some (server_params githubToken)
      , sessionLaunched := true, teardownCount := 1 }
    | .runFailed e =>
      { message := handleExn e, params := some (server_params githubToken)
      , sessionLaunched := true, teardownCount := 1 }

/-- What the Run Query button handler did: the local validation error it
displayed (if any), whether it called run_github_agent, and the query
string it submitted. -/
structure RunQueryOutcome where
  errorMsg : Option String
  invoked : Bool
  submitted : Option String
  deriving DecidableEq

/-- Python str() of an optional string as an f-string renders it. -/
def optStr : Option String → String
  | some s => s
  | none => "None"

/-- The repository-suffix injection of lines 316-319: append " in {repo}"
unless the repository is empty or its text already appears in the query. -/
def full_query (query repo : String) : String :=
  if repo ≠ "" ∧ strIn repo query = false then query ++ " in " ++ repo
  else query

/-- The Run Query button handler, src/mcp_agent.py lines 298-332: the
gate chain over OpenAI key, GitHub token, Docker availability, query
non-emptiness and repository format, then the invocation with the
suffix-injected query (or with the query unchanged when no repository
was given). -/
def run_query_handler (openaiKey githubToken : String) (dockerAvailable : Bool)
    (query repo : String) : RunQueryOutcome :=
  if openaiKey = "" then
    { errorMsg := some "❌ Please enter your OpenAI API key in the sidebar"
    , invoked := false, submitted := none }
  else if githubToken = "" then
    { errorMsg := some "❌ Please enter your GitHub token in the sidebar"
    , invoked := false, submitted := none }
  else if dockerAvailable = false then
    { errorMsg := some "❌ Docker is not available. Please ensure Docker is installed and running."
    , invoked := false, submitted := none }
  else if query = "" then
    { errorMsg := some "❌ Please enter a query", invoked := false, submitted := none }
  else if repo ≠ "" then
    let v := validate_repo_format repo
    if v.1 = false then
      { errorMsg := some ("❌ Invalid repository format: " ++ optStr v.2)
      , invoked := false, submitted := none }
    else
      { errorMsg := none, invoked := true, submitted := some (full_query query repo) }
  else
    { errorMsg := none, invoked := true, submitted := some query }

/- Helper lemmas -/

theorem str_data_append (s t : String) : (s ++ t).data = s.data ++ t.data :=
  rfl

theorem str_ne_of_head_ne (a b : String) (c1 c2 : Char)
    (h1 : a.data.head? = some c1) (h2 : b.data.head? = some c2)
    (hne : c1 ≠ c2) : a ≠ b :=
  fun e => hne (Option.some.inj ((e ▸ h1).symm.trans h2 : some c1 = some c2))

theorem dropWhile_head_false {p : Char → Bool} :
    ∀ {l : List Char} {c : Char} {rest : List Char},
      l.dropWhile p = c :: rest → p c = false := by
  intro l
  induction l with
  | nil => intro c rest h; simp [List.dropWhile] at h
  | cons a t ih =>
    intro c rest h
    rw [List.dropWhile_cons] at h
    by_cases hp : p a = true
    · rw [if_pos hp] at h; exact ih h
    · rw [if_neg hp] at h
      cases h
      exact Bool.eq_false_iff.mpr hp

theorem span_middle {p : Char → Bool} (a : List Char) (c : Char) (b : List Char)
    (ha : ∀ x ∈ a, p x = true) (hc : p c = false) :
    (a ++ c :: b).takeWhile p = a ∧ (a ++ c :: b).dropWhile p = c :: b := by
  induction a with
  | nil =>
    simp only [List.nil_append]
    rw [List.takeWhile_cons, List.dropWhile_cons, hc]
    simp
  | cons x xs ih =>
    have hx : p x = true := ha x (List.mem_cons_self x xs)
    have hxs : ∀ y ∈ xs, p y = true := fun y hy => ha y (List.mem_cons_of_mem x hy)
    obtain ⟨ih1, ih2⟩ := ih hxs
    constructor
    · rw [List.cons_append, List.takeWhile_cons, if_pos hx, ih1]
    · rw [List.cons_append, List.dropWhile_cons, if_pos hx, ih2]

theorem dropWhile_forall_iff (p : Char → Bool) (l : List Char) :
    (∀ c ∈ l.dropWhile p, p c = true) ↔ ∀ c ∈ l, p c = true := by
  induction l with
  | nil => simp
  | cons a t ih =>
    rw [List.dropWhile_cons]
    by_cases hp : p a = true
    · rw [if_pos hp]
      simp only [List.mem_cons]
      constructor
      · intro h c hc
        rcases hc with hc | hc
        · exact hc ▸ hp
        · exact ih.mp h c hc
      · intro h c hc
        exact ih.mpr (fun d hd => h d (Or.inr hd)) c hc
    · rw [if_neg hp]

theorem pyStrip_eq_nil_iff (l : List Char) :
    pyStrip l = [] ↔ ∀ c ∈ l, pyIsSpace c = true := by
  unfold pyStrip
  rw [List.reverse_eq_nil_iff, List.dropWhile_eq_nil_iff]
  constructor
  · intro h c hc
    exact (dropWhile_forall_iff pyIsSpace l).mp
      (fun d hd => h d (List.mem_reverse.mpr hd)) c hc
  · intro h c hc
    exact h c ((List.dropWhile_sublist pyIsSpace).subset (List.mem_reverse.mp hc))

theorem ownerChar_notSlash {c : Char} (h : ownerChar c = true) : notSlash c = true := by
  have hcs : c ≠ '/' := by
    intro he
    rw [he] at h
    exact absurd h (by decide)
  simp [notSlash, hcs]

theorem notSlash_false_eq {c : Char} (h : notSlash c = false) : c = '/' := by
  simpa [notSlash] using h

theorem coreMatch_iff (l : List Char) : coreMatch l = true ↔ SpecPattern l := by
  constructor
  · intro h
    cases hd : l.dropWhile notSlash with
    | nil => simp [coreMatch, hd] at h
    | cons c rest =>
      rw [coreMatch, hd] at h
      simp only [Bool.and_eq_true, Bool.not_eq_true', List.isEmpty_eq_false,
        List.all_eq_true] at h
      obtain ⟨⟨⟨ha, hall⟩, hb⟩, hball⟩ := h
      have hc : c = '/' := notSlash_false_eq (dropWhile_head_false hd)
      refine ⟨l.takeWhile notSlash, rest, ?_, ha, hall, hb, hball⟩
      rw [← hc, ← hd, List.takeWhile_append_dropWhile]
  · rintro ⟨a, b, rfl, ha, hall, hb, hball⟩
    have hpa : ∀ x ∈ a, notSlash x = true := fun x hx => ownerChar_notSlash (hall x hx)
    have hps : notSlash '/' = false := by decide
    obtain ⟨ht, hdw⟩ := span_middle a '/' b hpa hps
    rw [coreMatch, hdw, ht]
    simp only [Bool.and_eq_true, Bool.not_eq_true', List.isEmpty_eq_false,
      List.all_eq_true]
    exact ⟨⟨⟨ha, hall⟩, hb⟩, hball⟩

theorem trailing_newline_iff (l : List Char) :
    (l.getLast? = some '\n' ∧ SpecPattern l.dropLast) ↔
      ∃ m : List Char, l = m ++ ['\n'] ∧ SpecPattern m := by
  constructor
  · rintro ⟨hlast, hpat⟩
    rcases List.eq_nil_or_concat l with rfl | ⟨m, a, rfl⟩
    · simp at hlast
    · rw [List.concat_eq_append] at hpat hlast ⊢
      rw [List.getLast?_concat] at hlast
      have : a = '\n' := Option.some.inj hlast
      subst this
      rw [List.dropLast_concat] at hpat
      exact ⟨m, rfl, hpat⟩
  · rintro ⟨m, rfl, hm⟩
    rw [List.getLast?_concat, List.dropLast_concat]
    exact ⟨rfl, hm⟩

theorem pyRegexMatch_iff (l : List Char) : pyRegexMatch l = true ↔ PyAccepted l := by
  rw [PyAccepted, ← trailing_newline_iff]
  simp [pyRegexMatch, Bool.or_eq_true, Bool.and_eq_true, beq_iff_eq, coreMatch_iff]

theorem specPattern_slash_mem {l : List Char} (h : SpecPattern l) : '/' ∈ l := by
  obtain ⟨a, b, rfl, -, -, -, -⟩ := h
  simp

theorem pyAccepted_not_all_space {l : List Char} (h : PyAccepted l) :
    ¬ l.all pyIsSpace = true := by
  intro hall
  rw [List.all_eq_true] at hall
  have hmem : '/' ∈ l := by
    rcases h with h | ⟨m, rfl, hm⟩
    · exact specPattern_slash_mem h
    · exact List.mem_append_left _ (specPattern_slash_mem hm)
  have := hall '/' hmem
  exact absurd this (by decide)

theorem listStartsWith_iff (hay needle : List Char) :
    listStartsWith hay needle = true ↔ ∃ rest, hay = needle ++ rest := by
  induction needle generalizing hay with
  | nil => simp [listStartsWith]
  | cons n ns ih =>
    cases hay with
    | nil => simp [listStartsWith]
    | cons c hs =>
      rw [listStartsWith]
      simp only [Bool.and_eq_true, beq_iff_eq, ih, List.cons_append, List.cons.injEq]
      constructor
      · rintro ⟨rfl, rest, rfl⟩
        exact ⟨rest, rfl, rfl⟩
      · rintro ⟨rest, rfl, rfl⟩
        exact ⟨rfl, rest, rfl⟩

theorem containsSub_iff (hay needle : List Char) :
    containsSub hay needle = true ↔ ∃ pre post, hay = pre ++ needle ++ post := by
  induction hay with
  | nil =>
    rw [containsSub]
    simp only [List.isEmpty_iff]
    constructor
    · rintro rfl
      exact ⟨[], [], rfl⟩
    · rintro ⟨pre, post, h⟩
      rcases List.append_eq_nil.mp h.symm with ⟨h1, h2⟩
      exact (List.append_eq_nil.mp h1).2
  | cons c hs ih =>
    rw [containsSub]
    simp only [Bool.or_eq_true, listStartsWith_iff, ih]
    constructor
    · rintro (⟨rest, hr⟩ | ⟨pre, post, hp⟩)
      · exact ⟨[], rest, by simpa using hr⟩
      · exact ⟨c :: pre, post, by simp [hp]⟩
    · rintro ⟨pre, post, h⟩
      cases pre with
      | nil =>
        left
        exact ⟨post, by simpa using h⟩
      | cons p ps =>
        right
        rw [List.cons_append, List.cons_append] at h
        injection h with h1 h2
        exact ⟨ps, post, h2⟩

theorem strIn_iff (needle hay : String) :
    strIn needle hay = true ↔ AppearsIn needle hay := by
  rw [strIn, AppearsIn]
  exact containsSub_iff hay.data needle.data

/- Claim theorems -/

/-- Claim C1, counterexample: the string "owner/repo" followed by a
newline is accepted as valid by validate_repo_format (Python's dollar
anchor matches before one trailing newline), yet it does not match the
claimed owner/name pattern; and the non-empty all-whitespace string " "
fails the pattern but is rejected with the emptiness message, not with
the message naming the expected owner/repo format. -/
theorem validate_repo_format_claim_counterexample :
    validate_repo_format "owner/repo\n" = (true, none)
    ∧ ¬ SpecPattern "owner/repo\n".data
    ∧ validate_repo_format " " = (false, some "Repository cannot be empty")
    ∧ ¬ SpecPattern " ".data
    ∧ ("Repository cannot be empty" : String) ≠
        "Repository must be in format 'owner/repo' (e.g., 'octocat/Hello-World')" := by
  refine ⟨by decide, ?_, by decide, ?_, by decide⟩
  · intro h
    exact absurd ((coreMatch_iff _).mpr h) (by decide)
  · intro h
    exact absurd ((coreMatch_iff _).mpr h) (by decide)

/-- Claim C1 (amended): for every non-empty ASCII string, validateRepository
returns valid if and only if the string, or the string with one trailing
newline removed, matches the owner/name pattern (owner [A-Za-z0-9_-]+, one
slash, name [A-Za-z0-9_.-]+); a non-empty string consisting only of
whitespace is rejected with "Repository cannot be empty", and every other
non-empty string failing the (newline-tolerant) pattern is rejected with
the message naming the expected owner/repo format. -/
theorem validate_repo_format_characterization (s : String) (hne : s ≠ "")
    (hascii : ∀ c ∈ s.data, c.toNat ≤ 127) :
    ((validate_repo_format s).1 = true ↔ PyAccepted s.data)
    ∧ (s.data.all pyIsSpace = true →
        validate_repo_format s = (false, some "Repository cannot be empty"))
    ∧ (¬ PyAccepted s.data → s.data.all pyIsSpace = false →
        validate_repo_format s =
          (false, some "Repository must be in format 'owner/repo' (e.g., 'octocat/Hello-World')")) := by
  by_cases hsp : s.data.all pyIsSpace = true
  · have hstrip : pyStrip s.data = [] :=
      (pyStrip_eq_nil_iff s.data).mpr (List.all_eq_true.mp hsp)
    have hval : validate_repo_format s = (false, some "Repository cannot be empty") := by
      rw [validate_repo_format, if_pos (Or.inr hstrip)]
    refine ⟨?_, fun _ => hval, ?_⟩
    · rw [hval]
      simp only [show ((false : Bool), (some "Repository cannot be empty" : Option String)).1 = false from rfl]
      constructor
      · intro h
        exact absurd h (by decide)
      · intro h
        exact absurd hsp (pyAccepted_not_all_space h)
    · intro _ hns
      rw [hsp] at hns
      exact absurd hns (by decide)
  · have hstrip : pyStrip s.data ≠ [] := by
      intro h
      exact hsp (List.all_eq_true.mpr ((pyStrip_eq_nil_iff s.data).mp h))
    have hcond : ¬ (s = "" ∨ pyStrip s.data = []) := by
      rintro (h | h)
      · exact hne h
      · exact hstrip h
    by_cases hm : pyRegexMatch s.data = true
    · have hval : validate_repo_format s = (true, none) := by
        rw [validate_repo_format, if_neg hcond, if_pos hm]
      refine ⟨?_, ?_, ?_⟩
      · rw [hval]
        simp only [show ((true : Bool), (none : Option String)).1 = true from rfl, true_iff]
        exact (pyRegexMatch_iff s.data).mp hm
      · intro h
        exact absurd h hsp
      · intro hna _
        exact absurd ((pyRegexMatch_iff s.data).mp hm) hna
    · have hval : validate_repo_format s =
          (false, some "Repository must be in format 'owner/repo' (e.g., 'octocat/Hello-World')") := by
        rw [validate_repo_format, if_neg hcond, if_neg hm]
      refine ⟨?_, ?_, fun _ _ => hval⟩
      · rw [hval]
        constructor
        · intro h
          exact absurd h (by decide)
        · intro h
          exact absurd ((pyRegexMatch_iff s.data).mpr h) hm
      · intro h
        exact absurd h hsp

/-- Claim C1 witness: the amended characterization applied to the
concrete repository string "octocat/Hello-World". -/
theorem validate_repo_format_characterization_witness :
    (((validate_repo_format "octocat/Hello-World").1 = true ↔ PyAccepted "octocat/Hello-World".data)
    ∧ ("octocat/Hello-World".data.all pyIsSpace = true →
        validate_repo_format "octocat/Hello-World" = (false, some "Repository cannot be empty"))
    ∧ (¬ PyAccepted "octocat/Hello-World".data → "octocat/Hello-World".data.all pyIsSpace = false →
        validate_repo_format "octocat/Hello-World" =
          (false, some "Repository must be in format 'owner/repo' (e.g., 'octocat/Hello-World')"))) :=
  validate_repo_format_characterization "octocat/Hello-World" (by decide) (by decide)

/-- Claim C10: every non-empty string consisting only of whitespace
characters is rejected by validate_repo_format with the message
"Repository cannot be empty", not with the pattern-format message. -/
theorem validate_repo_format_whitespace_only (s : String) (hne : s ≠ "")
    (hsp : s.data.all pyIsSpace = true) :
    validate_repo_format s = (false, some "Repository cannot be empty") := by
  have hstrip : pyStrip s.data = [] :=
    (pyStrip_eq_nil_iff s.data).mpr (List.all_eq_true.mp hsp)
  rw [validate_repo_format, if_pos (Or.inr hstrip)]

/-- Claim C10 witness: three spaces are rejected as empty. -/
theorem validate_repo_format_whitespace_only_witness :
    validate_repo_format "   " = (false, some "Repository cannot be empty") :=
  validate_repo_format_whitespace_only "   " (by decide) (by decide)

/-- Claim C2: with both credentials present, a timeout of the awaited
agent run makes run_github_agent return the timeout-classified message
(a returned value, not a raised fault), with the session torn down
exactly once; and on every outcome in which the session was entered the
teardown ran exactly once; the fixed bound is 120 seconds. -/
theorem run_github_agent_timeout (token key : String) (ht : token ≠ "") (hk : key ≠ "") :
    (run_github_agent token key (.runFailed .timeoutErr)).message =
      "⏱️ Error: Request timed out after 120 seconds. Try a simpler query or check your connection."
    ∧ (run_github_agent token key (.runFailed .timeoutErr)).teardownCount = 1
    ∧ (∀ o : AgentOutcome, (run_github_agent token key o).sessionLaunched = true →
        (run_github_agent token key o).teardownCount = 1)
    ∧ agent_timeout_seconds = 120 := by
  refine ⟨?_, ?_, ?_, rfl⟩
  · simp [run_github_agent, handleExn, ht, hk]
  · simp [run_github_agent, ht, hk]
  · intro o
    cases o <;> simp [run_github_agent, ht, hk]

/-- Claim C2 witness: the timeout conclusion at concrete credentials, and
the teardown guarantee at a concrete launched outcome. -/
theorem run_github_agent_timeout_witness :
    (run_github_agent "tok" "key" (.runFailed .timeoutErr)).message =
      "⏱️ Error: Request timed out after 120 seconds. Try a simpler query or check your connection."
    ∧ (run_github_agent "tok" "key" (.runCompleted "ok")).teardownCount = 1 :=
  ⟨(run_github_agent_timeout "tok" "key" (by decide) (by decide)).1,
   (run_github_agent_timeout "tok" "key" (by decide) (by decide)).2.2.1
     (.runCompleted "ok") (by decide)⟩

/-- Claim C3: with the GitHub token empty, run_github_agent returns the
missing-token message immediately, building no launch parameters and
entering no session; with the token present but the OpenAI key empty, it
returns the missing-key message, likewise without any subprocess
activity. -/
theorem run_github_agent_missing_credentials :
    (∀ key : String, ∀ o : AgentOutcome,
      run_github_agent "" key o =
        { message := "❌ Error: GitHub token not provided. Please enter your token in the sidebar."
        , params := none, sessionLaunched := false, teardownCount := 0 })
    ∧ (∀ token : String, ∀ o : AgentOutcome, token ≠ "" →
      run_github_agent token "" o =
        { message := "❌ Error: OpenAI API key not provided. Please enter your API key in the sidebar."
        , params := none, sessionLaunched := false, teardownCount := 0 }) := by
  constructor
  · intro key o
    simp [run_github_agent]
  · intro token o ht
    simp [run_github_agent, ht]

/-- Claim C3 witness: the missing-key conclusion at a concrete non-empty
token and a concrete outcome. -/
theorem run_github_agent_missing_credentials_witness :
    run_github_agent "tok" "" (.runCompleted "ok") =
      { message := "❌ Error: OpenAI API key not provided. Please enter your API key in the sidebar."
      , params := none, sessionLaunched := false, teardownCount := 0 } :=
  run_github_agent_missing_credentials.2 "tok" (.runCompleted "ok") (by decide)

/-- Claim C4: every failure of the invocation is converted into a
returned message (on both the launch and the run path); the six
classified failure messages are pairwise distinct for all detail texts;
and the catch-all message carries the underlying exception's type name
and message as substrings. -/
theorem run_github_agent_error_taxonomy :
    (∀ token key : String, ∀ e : PyExn, token ≠ "" → key ≠ "" →
      (run_github_agent token key (.runFailed e)).message = handleExn e
      ∧ (run_github_agent token key (.launchFailed e)).message = handleExn e)
    ∧ (∀ d1 d2 d3 d4 : String,
        List.Pairwise (fun a b => a ≠ b)
          [handleExn .timeoutErr, handleExn (.connectionErr d1), handleExn .fileNotFoundErr,
            handleExn (.permissionErr d2), handleExn (.valueErr d3), handleExn (.keyErr d4)])
    ∧ (∀ ty d : String,
        AppearsIn ty (handleExn (.otherErr ty d)) ∧ AppearsIn d (handleExn (.otherErr ty d))) := by
  refine ⟨?_, ?_, ?_⟩
  · intro token key e ht hk
    constructor <;> simp [run_github_agent, ht, hk]
  · intro d1 d2 d3 d4
    have hmap :
        ([handleExn .timeoutErr, handleExn (.connectionErr d1), handleExn .fileNotFoundErr,
          handleExn (.permissionErr d2), handleExn (.valueErr d3),
          handleExn (.keyErr d4)].map (fun s => s.data.head?)) =
        [some '⏱', some '🔌', some '🐳', some '🔒', some '⚠', some '🔑'] := rfl
    have hpw : (([handleExn .timeoutErr, handleExn (.connectionErr d1), handleExn .fileNotFoundErr,
        handleExn (.permissionErr d2), handleExn (.valueErr d3),
        handleExn (.keyErr d4)].map (fun s => s.data.head?)).Pairwise
          (fun a b : Option Char => a ≠ b)) := by
      rw [hmap]
      decide
    exact (List.pairwise_map.mp hpw).imp
      (fun hab e => hab (congrArg (fun s : String => s.data.head?) e))
  · intro ty d
    constructor
    · refine ⟨"❌ Unexpected error (".data,
        ("): ").data ++ d.data ++
          ("\n\nPlease check:\n- Docker is running\n- Your tokens are valid\n- The repository exists and is accessible").data, ?_⟩
      simp [handleExn, str_data_append, List.append_assoc]
    · refine ⟨"❌ Unexpected error (".data ++ ty.data ++ ("): ").data,
        ("\n\nPlease check:\n- Docker is running\n- Your tokens are valid\n- The repository exists and is accessible").data, ?_⟩
      simp [handleExn, str_data_append, List.append_assoc]

/-- Claim C4 witness: the conversion conclusion at concrete credentials
and a concrete connection failure. -/
theorem run_github_agent_error_taxonomy_witness :
    (run_github_agent "tok" "key" (.runFailed (.connectionErr "refused"))).message =
      handleExn (.connectionErr "refused")
    ∧ (run_github_agent "tok" "key" (.launchFailed (.connectionErr "refused"))).message =
      handleExn (.connectionErr "refused") :=
  run_github_agent_error_taxonomy.1 "tok" "key" (.connectionErr "refused")
    (by decide) (by decide)

/-- Claim C5: the pre-submission repository-injection step is
idempotent: for a non-empty repository and any query text, the query is
returned unchanged when the repository's literal text already appears in
it, and otherwise the suffix " in repo" is appended; and the Run Query
handler applies exactly this step to whatever query string it submits,
independent of which category produced it. -/
theorem full_query_injection (repo query : String) (h : repo ≠ "") :
    (AppearsIn repo query → full_query query repo = query)
    ∧ (¬ AppearsIn repo query → full_query query repo = query ++ " in " ++ repo)
    ∧ (∀ key token : String, key ≠ "" → token ≠ "" → query ≠ "" →
        (validate_repo_format repo).1 = true →
        run_query_handler key token true query repo =
          { errorMsg := none, invoked := true, submitted := some (full_query query repo) }) := by
  refine ⟨?_, ?_, ?_⟩
  · intro hap
    have hin : strIn repo query = true := (strIn_iff repo query).mpr hap
    simp [full_query, hin]
  · intro hnap
    have hin : strIn repo query = false := by
      cases hb : strIn repo query
      · rfl
      · exact absurd ((strIn_iff repo query).mp hb) hnap
    simp [full_query, hin, h]
  · intro key token hkey htok hq hv
    rw [run_query_handler, if_neg hkey, if_neg htok,
      if_neg (by simp : ¬ (true = false)), if_neg hq, if_pos h]
    simp only [hv]
    rw [if_neg (by simp : ¬ (true = false))]

/-- Claim C5 witness: the step leaves a query that already names the
repository unchanged. -/
theorem full_query_injection_witness :
    full_query "Find issues labeled as bugs in octocat/Hello-World" "octocat/Hello-World" =
      "Find issues labeled as bugs in octocat/Hello-World" :=
  (full_query_injection "octocat/Hello-World"
      "Find issues labeled as bugs in octocat/Hello-World" (by decide)).1
    ⟨"Find issues labeled as bugs in ".data, [], by decide⟩

/-- Claim C6, counterexample: for the Branch Analysis and Releases
categories the repository-scoped template is not the unscoped template
followed by " in repo": the scoped variants carry extra text ("(no
activity in 60 days)" and "and generate changelog") absent from the
unscoped ones. -/
theorem query_template_scoped_counterexample :
    query_template .branchAnalysis "octocat/Hello-World" ≠
      query_template .branchAnalysis "" ++ " in " ++ "octocat/Hello-World"
    ∧ query_template .releases "octocat/Hello-World" ≠
      query_template .releases "" ++ " in " ++ "octocat/Hello-World" := by
  constructor <;> decide

/-- Claim C6 (amended): for every non-empty repository and every category
other than Custom, the template is a fixed scoped base followed by
" in repo"; that base equals the category's unscoped template for every
category except Branch Analysis and Releases, whose scoped bases extend
their unscoped texts; the empty repository yields the unscoped template
verbatim, and the Custom category passes the free text through
unchanged. -/
theorem query_template_spec (repo : String) (h : repo ≠ "") :
    (∀ qt : QueryCategory, qt ≠ .custom →
      query_template qt repo = scoped_template_base qt ++ " in " ++ repo)
    ∧ (∀ qt : QueryCategory, qt ≠ .custom → qt ≠ .branchAnalysis → qt ≠ .releases →
        scoped_template_base qt = query_template qt "")
    ∧ query_template .branchAnalysis "" = "List all stale branches"
    ∧ scoped_template_base .branchAnalysis = "List all stale branches (no activity in 60 days)"
    ∧ query_template .releases "" = "Show recent releases"
    ∧ scoped_template_base .releases = "Show recent releases and generate changelog"
    ∧ (∀ freeText : String, buildInstruction .custom repo freeText = freeText)
    ∧ (∀ qt : QueryCategory, ∀ freeText : String, qt ≠ .custom →
        buildInstruction qt repo freeText = query_template qt repo) := by
  refine ⟨?_, ?_, rfl, rfl, rfl, rfl, fun t => rfl, ?_⟩
  · intro qt hqt
    cases qt <;> first
      | exact absurd rfl hqt
      | (show (if repo = "" then _ else _) = _
         rw [if_neg h]
         exact congrArg (· ++ repo) (by decide))
  · intro qt hqt hb hr
    cases qt <;> first
      | exact absurd rfl hqt
      | exact absurd rfl hb
      | exact absurd rfl hr
      | rfl
  · intro qt t hqt
    rw [buildInstruction, if_neg hqt]

/-- Claim C6 witness: the Issues template scoped to a concrete
repository, matching the spec's end-to-end scenario. -/
theorem query_template_spec_witness :
    query_template .issues "octocat/Hello-World" =
      scoped_template_base .issues ++ " in " ++ "octocat/Hello-World" :=
  (query_template_spec "octocat/Hello-World" (by decide)).1 .issues (by decide)

/-- Claim C7: the Run Query handler evaluates its gates in the order
OpenAI key, GitHub token, Docker availability, query non-emptiness,
repository format; the first failing gate determines the displayed error
and no invocation happens; run_github_agent is called exactly when every
gate passes (an empty repository passes the format gate), and only then
is the instruction built and submitted. -/
theorem run_query_handler_gating (key token : String) (docker : Bool) (query repo : String) :
    (key = "" → run_query_handler key token docker query repo =
      { errorMsg := some "❌ Please enter your OpenAI API key in the sidebar"
      , invoked := false, submitted := none })
    ∧ (key ≠ "" → token = "" → run_query_handler key token docker query repo =
      { errorMsg := some "❌ Please enter your GitHub token in the sidebar"
      , invoked := false, submitted := none })
    ∧ (key ≠ "" → token ≠ "" → docker = false → run_query_handler key token docker query repo =
      { errorMsg := some "❌ Docker is not available. Please ensure Docker is installed and running."
      , invoked := false, submitted := none })
    ∧ (key ≠ "" → token ≠ "" → docker = true → query = "" →
      run_query_handler key token docker query repo =
        { errorMsg := some "❌ Please enter a query", invoked := false, submitted := none })
    ∧ (key ≠ "" → token ≠ "" → docker = true → query ≠ "" → repo ≠ "" →
      (validate_repo_format repo).1 = false →
      run_query_handler key token docker query repo =
        { errorMsg := some ("❌ Invalid repository format: " ++ optStr (validate_repo_format repo).2)
        , invoked := false, submitted := none })
    ∧ (key ≠ "" → token ≠ "" → docker = true → query ≠ "" → repo ≠ "" →
      (validate_repo_format repo).1 = true →
      run_query_handler key token docker query repo =
        { errorMsg := none, invoked := true, submitted := some (full_query query repo) })
    ∧ (key ≠ "" → token ≠ "" → docker = true → query ≠ "" → repo = "" →
      run_query_handler key token docker query repo =
        { errorMsg := none, invoked := true, submitted := some query })
    ∧ ((run_query_handler key token docker query repo).invoked = true ↔
        (key ≠ "" ∧ token ≠ "" ∧ docker = true ∧ query ≠ "" ∧
          (repo = "" ∨ (validate_repo_format repo).1 = true))) := by
  refine ⟨?_, ?_, ?_, ?_, ?_, ?_, ?_, ?_⟩
  · intro hk
    rw [run_query_handler, if_pos hk]
  · intro hk ht
    rw [run_query_handler, if_neg hk, if_pos ht]
  · intro hk ht hd
    subst hd
    rw [run_query_handler, if_neg hk, if_neg ht, if_pos rfl]
  · intro hk ht hd hq
    subst hd
    rw [run_query_handler, if_neg hk, if_neg ht,
      if_neg (by simp : ¬ (true = false)), if_pos hq]
  · intro hk ht hd hq hr hv
    subst hd
    rw [run_query_handler, if_neg hk, if_neg ht,
      if_neg (by simp : ¬ (true = false)), if_neg hq, if_pos hr]
    simp only [hv]
    rw [if_pos trivial]
  · intro hk ht hd hq hr hv
    subst hd
    rw [run_query_handler, if_neg hk, if_neg ht,
      if_neg (by simp : ¬ (true = false)), if_neg hq, if_pos hr]
    simp only [hv]
    rw [if_neg (by simp : ¬ (true = false))]
  · intro hk ht hd hr
    subst hd
    intro hrep
    rw [run_query_handler, if_neg hk, if_neg ht,
      if_neg (by simp : ¬ (true = false)), if_neg hr,
      if_neg (by simp [hrep] : ¬ ¬ repo = "")]
  · by_cases hk : key = ""
    · rw [run_query_handler, if_pos hk]
      simp [hk]
    · by_cases ht : token = ""
      · rw [run_query_handler, if_neg hk, if_pos ht]
        simp [hk, ht]
      · by_cases hd : docker = false
        · rw [run_query_handler, if_neg hk, if_neg ht, if_pos hd]
          subst hd
          simp [hk, ht]
        · have hd1 : docker = true := by
            cases docker
            · exact absurd rfl hd
            · rfl
          subst hd1
          by_cases hq : query = ""
          · rw [run_query_handler, if_neg hk, if_neg ht,
              if_neg (by simp : ¬ (true = false)), if_pos hq]
            simp [hk, ht, hq]
          · by_cases hr : repo = ""
            · rw [run_query_handler, if_neg hk, if_neg ht,
                if_neg (by simp : ¬ (true = false)), if_neg hq,
                if_neg (by simp [hr] : ¬ ¬ repo = "")]
              simp [hk, ht, hq, hr]
            · rw [run_query_handler, if_neg hk, if_neg ht,
                if_neg (by simp : ¬ (true = false)), if_neg hq, if_pos hr]
              by_cases hv : (validate_repo_format repo).1 = false
              · simp only [hv]
                rw [if_pos trivial]
                simp [hk, ht, hq, hr, hv]
              · have hv1 : (validate_repo_format repo).1 = true := by
                  cases hb : (validate_repo_format repo).1
                  · exact absurd hb hv
                  · rfl
                simp only [hv1]
                rw [if_neg (by simp : ¬ (true = false))]
                simp [hk, ht, hq, hr, hv1]

/-- Claim C7 witness: all gates passing at concrete inputs with no
repository given, so the query is submitted unchanged. -/
theorem run_query_handler_gating_witness :
    run_query_handler "key" "tok" true "list issues" "" =
      { errorMsg := none, invoked := true, submitted := some "list issues" } :=
  (run_query_handler_gating "key" "tok" true "list issues" "").2.2.2.2.2.2.1
    (by decide) (by decide) rfl (by decide) rfl

/-- Claim C8: check_docker_available reports available exactly when the
docker status command completed within the 5-second timeout with exit
code zero, and each of the three failure sub-causes (executable missing,
non-zero exit, timeout) yields its own distinct message. -/
theorem check_docker_available_spec :
    (∀ o : DockerCheckOutcome, (check_docker_available o).1 = true ↔ o = .completed 0)
    ∧ (∀ rc : Int, check_docker_available (.completed rc) =
        if rc = 0 then (true, none)
        else (false, some "Docker is installed but not running. Please start Docker Desktop."))
    ∧ check_docker_available .executableMissing =
        (false, some "Docker is not installed. Please install Docker Desktop from https://www.docker.com/products/docker-desktop")
    ∧ check_docker_available .timedOut =
        (false, some "Docker check timed out. Docker may be unresponsive.")
    ∧ List.Pairwise (fun a b : String => a ≠ b)
        ["Docker is installed but not running. Please start Docker Desktop.",
          "Docker is not installed. Please install Docker Desktop from https://www.docker.com/products/docker-desktop",
          "Docker check timed out. Docker may be unresponsive."]
    ∧ docker_check_timeout_seconds = 5 := by
  refine ⟨?_, ?_, rfl, rfl, by decide, rfl⟩
  · intro o
    cases o with
    | completed rc =>
      by_cases hrc : rc = 0
      · subst hrc
        simp [check_docker_available]
      · simp [check_docker_available, hrc]
    | executableMissing => simp [check_docker_available]
    | timedOut => simp [check_docker_available]
    | otherFailure m => simp [check_docker_available]
  · intro rc
    by_cases hrc : rc = 0
    · subst hrc
      simp [check_docker_available]
    · simp [check_docker_available, hrc]

/-- Claim C9: the launch parameters use the fixed image reference, the
interactive stdio flag "-i", the auto-removal flag "--rm", and forward
exactly the two environment variables GITHUB_PERSONAL_ACCESS_TOKEN and
GITHUB_TOOLSETS into the container, where the toolset list is the fixed
capability string; and run_github_agent builds exactly these parameters
whenever both credentials are present. -/
theorem server_params_spec :
    (∀ token : String,
      (server_params token).command = "docker"
      ∧ (server_params token).args =
          ["run", "-i", "--rm", "-e", "GITHUB_PERSONAL_ACCESS_TOKEN",
            "-e", "GITHUB_TOOLSETS", "ghcr.io/github/github-mcp-server"]
      ∧ "-i" ∈ (server_params token).args
      ∧ "--rm" ∈ (server_params token).args
      ∧ "ghcr.io/github/github-mcp-server" ∈ (server_params token).args
      ∧ forwardedEnvVars (server_params token).args =
          ["GITHUB_PERSONAL_ACCESS_TOKEN", "GITHUB_TOOLSETS"]
      ∧ (server_params token).envAdds =
          [("GITHUB_PERSONAL_ACCESS_TOKEN", token),
            ("GITHUB_TOOLSETS", "repos,issues,pull_requests,workflows,search,branches,commits,releases")])
    ∧ (∀ token key : String, ∀ o : AgentOutcome, token ≠ "" → key ≠ "" →
        (run_github_agent token key o).params = some (server_params token)) := by
  constructor
  · intro token
    exact ⟨rfl, rfl, by simp [server_params], by simp [server_params],
      by simp [server_params], rfl, rfl⟩
  · intro token key o ht hk
    cases o <;> simp [run_github_agent, ht, hk]

/-- Claim C9 witness: the parameters built by run_github_agent at
concrete credentials. -/
theorem server_params_spec_witness :
    (run_github_agent "tok" "key" (.runCompleted "ok")).params = some (server_params "tok") :=
  server_params_spec.2 "tok" "key" (.runCompleted "ok") (by decide) (by decide)

end MCPAgent
